import Mathlib

/-!
Verification development for the `es-function-timers` repository
(`src/timers/throttle/index.js` and `src/timers/clocked/index.js`).

The JavaScript source is shallowly embedded:

* JavaScript primitive values (as far as the wrappers inspect them) are the
  inductive `JSVal`; numbers are `JSNum` (NaN, the two infinities, and
  integral values — every duration the library ever computes with is
  integral, since `parseInt` is applied first).
* The three wrapper factories (`throttle`, `debounce`,
  `createClockedFunction`) are embedded at two levels: the argument-guard /
  sanitization level over `JSVal`, and a runtime level where the mutable
  closure variables of each governor become explicit state records and the
  host timer service (`setTimeout` / `clearTimeout` / `setInterval` /
  `clearInterval`) becomes explicit pending-task bookkeeping driven by a
  deterministic scheduler.  Invocation contexts and argument values are
  carried as opaque `Nat`s (`Option Nat` where JavaScript allows
  `null`/`undefined`).
* Time is `Int` milliseconds (a `Date.now()` reading).  Scheduled tasks run
  when the timeline reaches their due instant; a task due at the same
  instant as an incoming call runs before that call (the timer service
  fires a callback "no sooner than" its delay).
-/

namespace ESFT

/-! ## JavaScript value model -/

/-- A JavaScript number as far as this library inspects one: `NaN`, the two
infinities, or an integral value.  (Every numeric argument is passed through
`parseInt` before use, so non-integral finite values never reach the
governors; integral values in the safe range are what the theorems below
quantify over.) -/
inductive JSNum where
  | nan : JSNum
  | posInf : JSNum
  | negInf : JSNum
  | int (n : Int) : JSNum
deriving DecidableEq

/-- A JavaScript value as far as the wrapper factories inspect one. `fn`
stands for any function object (identified by an opaque id). -/
inductive JSVal where
  | undefined : JSVal
  | null : JSVal
  | boolean (b : Bool) : JSVal
  | number (x : JSNum) : JSVal
  | string (s : String) : JSVal
  | fn (id : Nat) : JSVal
deriving DecidableEq

/-- Source `isFunction` (both files): `typeof value === 'function' &&
typeof value.call === 'function' && typeof value.apply === 'function'`.
In the model only `fn` values have `typeof _ === 'function'` (and every
function object carries `call` and `apply`), so the test holds exactly on
`fn`. -/
def isFunction : JSVal → Bool
  | .fn _ => true
  | _ => false

/-- JavaScript `ToString` as applied by `parseInt` to its first argument.
Integral numbers in the safe range print in plain decimal (Lean's `Int`
printing agrees with JavaScript there); the theorems that rely on this
stay inside the safe range. -/
def jsToString : JSVal → String
  | .undefined => "undefined"
  | .null => "null"
  | .boolean true => "true"
  | .boolean false => "false"
  | .number .nan => "NaN"
  | .number .posInf => "Infinity"
  | .number .negInf => "-Infinity"
  | .number (.int n) => toString n
  | .string s => s
  | .fn _ => "function () { }"

/-- Longest prefix of decimal digits. -/
def takeDigits : List Char → List Char
  | [] => []
  | c :: rest => if c.isDigit then c :: takeDigits rest else []

/-- Value of a digit list, most significant first. -/
def digitsToNat (ds : List Char) : Nat :=
  ds.foldl (fun acc c => acc * 10 + (c.toNat - 48)) 0

/-- `parseInt(s, 10)`: skip leading whitespace, read an optional sign and
then the longest digit prefix; `NaN` when no digit follows. -/
def jsParseIntStr (s : String) : JSNum :=
  let cs := s.data.dropWhile (fun c => c = ' ' ∨ c = '\t' ∨ c = '\n')
  match cs with
  | '-' :: rest =>
      let ds := takeDigits rest
      if ds.isEmpty then .nan else .int (-(digitsToNat ds : Int))
  | '+' :: rest =>
      let ds := takeDigits rest
      if ds.isEmpty then .nan else .int (digitsToNat ds : Int)
  | _ =>
      let ds := takeDigits cs
      if ds.isEmpty then .nan else .int (digitsToNat ds : Int)

/-- `parseInt(value, 10)` on an arbitrary value: `ToString` then parse. -/
def jsParseInt (v : JSVal) : JSNum :=
  jsParseIntStr (jsToString v)

/-- `Number.MAX_SAFE_INTEGER`. -/
def maxSafeInteger : Int := 2 ^ 53 - 1

/-- `Number.isSafeInteger` restricted to the result of `parseInt` (always
`NaN` or integral). -/
def isSafeInteger : JSNum → Bool
  | .int n => decide (-maxSafeInteger ≤ n ∧ n ≤ maxSafeInteger)
  | _ => false

/-- `Number.isFinite` on a `parseInt` result. -/
def jsIsFinite : JSNum → Bool
  | .int _ => true
  | _ => false

/-! ### Duration sanitization, throttle/debounce file

`getSanitizedInteger(number) { return
(isSafeInteger(number = parseInt(number, 10)) && number) || 0; }` —
when the parse is not a safe integer the `&&` yields `false` and `|| 0`
gives `0`; when it is a safe integer `n`, `true && n` is `n`, and `n || 0`
is `n` for `n ≠ 0` and `0` for `n = 0`.  Either way the result is `n` when
`n` is safe and `0` otherwise. -/

def throttleGetSanitizedInteger (v : JSVal) : Int :=
  match jsParseInt v with
  | .int n => if isSafeInteger (.int n) then n else 0
  | _ => 0

def throttleGetSanitizedPositiveInteger (v : JSVal) : Int :=
  max (throttleGetSanitizedInteger v) 0

/-- `threshold = getSanitizedPositiveInteger(threshold) ||
DEFAULT_THROTTLE_THRESHOLD` with the default `200`. -/
def throttleThreshold (v : JSVal) : Int :=
  let t := throttleGetSanitizedPositiveInteger v
  if t = 0 then 200 else t

/-- `delay = getSanitizedPositiveInteger(delay) || DEFAULT_DEBOUNCE_DELAY`
with the default `100` (same sanitizer, same file). -/
def debounceDelay (v : JSVal) : Int :=
  let t := throttleGetSanitizedPositiveInteger v
  if t = 0 then 100 else t

/-! ### Duration sanitization, clocked file

`getSanitizedInteger(value) { value = parseInt(value, 10);
return isFinite(value) ? value : 0; }` -/

def clockedGetSanitizedInteger (v : JSVal) : Int :=
  match jsParseInt v with
  | .int n => if jsIsFinite (.int n) then n else 0
  | _ => 0

def clockedGetSanitizedPositiveInteger (v : JSVal) : Int :=
  max (clockedGetSanitizedInteger v) 0

/-- `interval = getSanitizedPositiveInteger(interval) || DEFAULT_INTERVAL`
with the default `200`. -/
def clockedInterval (v : JSVal) : Int :=
  let t := clockedGetSanitizedPositiveInteger v
  if t = 0 then 200 else t

/-! ## Wrapper guards (the not-invocable pass-through policy) -/

/-- Outcome of applying a wrapper factory: a governed callable around the
original, or the original input handed back unchanged. -/
inductive WrapResult where
  | governed (orig : JSVal) : WrapResult
  | passthrough (v : JSVal) : WrapResult
deriving DecidableEq

/-- Source guard in `throttle`: `if (!isFunction(proceed)) { return
proceed; }` and otherwise the governed `throttled` closure is returned.
The whole factory body is straight-line value manipulation — nothing in it
can throw. -/
def throttleWrap (proceed : JSVal) : WrapResult :=
  if isFunction proceed then .governed proceed else .passthrough proceed

/-- Source guard in `debounce`: identical shape to `throttle`. -/
def debounceWrap (proceed : JSVal) : WrapResult :=
  if isFunction proceed then .governed proceed else .passthrough proceed

/-- Source tail of `createClockedFunction`: `return (isFunction(proceed) &&
clocked) || proceed;`.  When `proceed` is a function the `&&` yields the
(truthy) `clocked` closure and `||` returns it; otherwise the `&&` yields
`false` and `||` returns `proceed` itself (whether truthy or falsy, the
right operand is `proceed`). -/
def createClockedFunction (proceed : JSVal) : WrapResult :=
  if isFunction proceed then .governed proceed else .passthrough proceed

/-! ## Throttle governor runtime

The closure variables of `throttle`'s returned `throttled` function become
an explicit state record.  `timeoutId` needs no handle bookkeeping here:
the single `setTimeout` site assigns the fresh handle straight to
`timeoutId`, so the variable is stale exactly when no task is pending and
`clearTimeout(timeoutId)` is then a no-op — the pending task is modelled
directly as `pending : Option TPending` and `clearTimeout` as clearing it.
`timeGap` may be computed before the variable is ever assigned only in
branches the guard keeps unreachable, matching the source. -/

/-- Configuration fixed at composition time (after sanitization):
`threshold`, `isSuppressTrailingCall`, and the sanitized `target`. -/
structure TCfg where
  threshold : Int
  suppress : Bool
  target : Option Nat
deriving DecidableEq

/-- A pending trailing invocation: its due instant and the arguments passed
through `setTimeout`. -/
structure TPending where
  fireAt : Int
  args : List Nat
deriving DecidableEq

/-- The mutable closure state of one `throttled` governor:
`timestampRecent`, `timestampCurrent`, `context`, and the pending timer. -/
structure TState where
  recent : Option Int
  current : Option Int
  context : Option Nat
  pending : Option TPending
deriving DecidableEq

/-- Closure state right after composition: every variable undefined, no
timer pending. -/
def tInit : TState := ⟨none, none, none, none⟩

/-- JavaScript truthiness of the `timestampRecent` variable as tested by
`if (timestampRecent)`: `undefined` and `0` are falsy, every other number
truthy. -/
def jsTruthyTime : Option Int → Bool
  | some r => r != 0
  | none => false

/-- Source context resolution shared by `throttled` and `debounced`:
`context = target || getSanitizedTarget(this)` — the composition-time
`target` wins whenever it is truthy (`null` and a hypothetical falsy
target defer to the sanitized call-site `this`). -/
def effCtxOr (target cs : Option Nat) : Option Nat :=
  match target with
  | some tv => if tv ≠ 0 then some tv else cs
  | none => cs

/-- One observable forwarded invocation: when it ran, with which arguments
and context, and whether it was a trailing (scheduled) fire. -/
structure TFire where
  time : Int
  args : List Nat
  ctx : Option Nat
  trailing : Bool
deriving DecidableEq

/-- Source `trigger(...argsArray)`: `timestampRecent = timestampCurrent;
proceed.apply(context, argsArray)` — it copies whatever
`timestampCurrent` holds at run time and forwards with the current
`context`. -/
def tTrigger (s : TState) (t : Int) (args : List Nat) (trailing : Bool) :
    TState × TFire :=
  ({ s with recent := s.current }, ⟨t, args, s.context, trailing⟩)

/-- Source `throttled(...argsArray)` invoked at instant `t` with call-site
context `cs`: clear any pending timer, resolve the context, stamp
`timestampCurrent`, then fire immediately (initial call, or
suppress-mode with `timeGap >= threshold`) or schedule the trailing fire
`max(threshold - timeGap, 0)` ms out, passing this call's arguments
through `setTimeout`. -/
def throttledCall (cfg : TCfg) (s : TState) (t : Int) (args : List Nat)
    (cs : Option Nat) : TState × Option TFire :=
  let s1 : TState :=
    { s with pending := none, context := effCtxOr cfg.target cs,
             current := some t }
  if jsTruthyTime s1.recent then
    let gap : Int := t - s1.recent.getD 0
    if cfg.suppress ∧ gap ≥ cfg.threshold then
      let (s2, f) := tTrigger s1 t args false
      (s2, some f)
    else
      ({ s1 with pending := some ⟨t + max (cfg.threshold - gap) 0, args⟩ },
        none)
  else
    let (s2, f) := tTrigger s1 t args false
    (s2, some f)

/-- One external invocation of the governed callable on the timeline. -/
structure TCall where
  time : Int
  args : List Nat
  cs : Option Nat

/-- The pending trailing task fires: the timer service removes it and runs
`trigger` at its due instant with the captured arguments. -/
def tFirePending (s : TState) (p : TPending) : TState × TFire :=
  tTrigger { s with pending := none } p.fireAt p.args true

/-- Deterministic timeline driver: before each call, a pending task due at
or before that call's instant fires first; after the last call the
remaining pending task (if any) fires.  Returns the final closure state
and every forwarded invocation in order. -/
def runThrottleAux (cfg : TCfg) : TState → List TCall → TState × List TFire
  | s, [] =>
      match s.pending with
      | some p => let (s1, f) := tFirePending s p; (s1, [f])
      | none => (s, [])
  | s, c :: rest =>
      match s.pending with
      | some p =>
          if p.fireAt ≤ c.time then
            let (s1, f1) := tFirePending s p
            let (s2, f2) := throttledCall cfg s1 c.time c.args c.cs
            let (s3, fs) := runThrottleAux cfg s2 rest
            (s3, f1 :: (f2.toList ++ fs))
          else
            let (s2, f2) := throttledCall cfg s c.time c.args c.cs
            let (s3, fs) := runThrottleAux cfg s2 rest
            (s3, f2.toList ++ fs)
      | none =>
          let (s2, f2) := throttledCall cfg s c.time c.args c.cs
          let (s3, fs) := runThrottleAux cfg s2 rest
          (s3, f2.toList ++ fs)

/-- Forwarded invocations produced by a fresh throttled governor on a list
of calls. -/
def runThrottle (cfg : TCfg) (calls : List TCall) : List TFire :=
  (runThrottleAux cfg tInit calls).2

/-! ## Debounce governor runtime

Here handle bookkeeping matters: `debounced` tests `if (timeoutId)` on a
variable that stays truthy after its task has already run (only
`resetTimeoutId` — called directly by `debounceTrigger` and by the re-arm
task — nulls it), so the state keeps the variables `timeoutId` /
`timeoutResetId` as `Option Nat` handles separately from the actual
pending tasks.  Browser timer handles are positive integers, so handles
are allocated from `1` and truthiness of a held handle is `isSome`.  At
most one trigger-flavoured task and one re-arm task can be pending. -/

/-- Configuration of one debounced governor after sanitization. -/
structure DCfg where
  delay : Int
  leading : Bool
  target : Option Nat
deriving DecidableEq

/-- The three callbacks the source hands to `setTimeout`:
`immediateTrigger`, `debounceTrigger`, and `resetTimeoutId` (re-arm). -/
inductive DKind where
  | immediate : DKind
  | trailing : DKind
  | reset : DKind
deriving DecidableEq

/-- A task sitting in the host timer service. -/
structure DTask where
  handle : Nat
  due : Int
  kind : DKind
  args : List Nat
deriving DecidableEq

/-- Mutable closure state of one `debounced` governor plus its outstanding
timer-service tasks.  `pendTrig` is the scheduled `immediateTrigger` or
`debounceTrigger` (if any), `pendReset` the scheduled `resetTimeoutId`. -/
structure DState where
  timeoutId : Option Nat
  timeoutResetId : Option Nat
  pendTrig : Option DTask
  pendReset : Option DTask
  context : Option Nat
  nextHandle : Nat
deriving DecidableEq

/-- State after composition: `resetTimeoutId()` has run once, both handle
variables otherwise unassigned, nothing pending. -/
def dInit : DState := ⟨none, none, none, none, none, 1⟩

/-- `clearTimeout(x)`: remove the task with that handle if it is still
pending; stale or unassigned handles are a no-op. -/
def dClearTimeout (x : Option Nat) (s : DState) : DState :=
  { s with
    pendTrig :=
      match x, s.pendTrig with
      | some h, some task => if task.handle = h then none else some task
      | _, t => t
    pendReset :=
      match x, s.pendReset with
      | some h, some task => if task.handle = h then none else some task
      | _, t => t }

/-- `setTimeout(trigger-flavoured fn, d, ...args)`: allocate a fresh
handle, register the task, return the handle. -/
def dSchedTrig (s : DState) (kind : DKind) (due : Int) (args : List Nat) :
    DState × Nat :=
  ({ s with pendTrig := some ⟨s.nextHandle, due, kind, args⟩,
            nextHandle := s.nextHandle + 1 }, s.nextHandle)

/-- `setTimeout(resetTimeoutId, delay)`. -/
def dSchedReset (s : DState) (due : Int) : DState × Nat :=
  ({ s with pendReset := some ⟨s.nextHandle, due, .reset, []⟩,
            nextHandle := s.nextHandle + 1 }, s.nextHandle)

/-- A forwarded invocation of the debounced original callable. -/
structure DFire where
  time : Int
  args : List Nat
  ctx : Option Nat
deriving DecidableEq

/-- Source `debounced(...argsArray)` at instant `t`: resolve the context;
if `timeoutId` is truthy (window open, possibly via a stale handle),
cancel the re-arm and the active timer and schedule `debounceTrigger`
after `delay` with this call's arguments; otherwise schedule
`immediateTrigger` after `0` ms (leading mode) or `debounceTrigger`
after `delay`. -/
def debouncedCall (cfg : DCfg) (s : DState) (t : Int) (args : List Nat)
    (cs : Option Nat) : DState :=
  let s1 := { s with context := effCtxOr cfg.target cs }
  match s1.timeoutId with
  | some _ =>
      let s2 := dClearTimeout s1.timeoutResetId s1
      let s3 := dClearTimeout s2.timeoutId s2
      let (s4, h) := dSchedTrig s3 .trailing (t + cfg.delay) args
      { s4 with timeoutId := some h }
  | none =>
      if cfg.leading then
        let (s2, h) := dSchedTrig s1 .immediate (t + 0) args
        { s2 with timeoutId := some h }
      else
        let (s2, h) := dSchedTrig s1 .trailing (t + cfg.delay) args
        { s2 with timeoutId := some h }

/-- Run one due task, already removed from the pending set.
`resetTimeoutId` nulls `timeoutId`; `debounceTrigger` nulls it and fires;
`immediateTrigger` schedules the re-arm and fires (in that source
order). -/
def dRunTask (cfg : DCfg) (s : DState) (task : DTask) :
    DState × Option DFire :=
  match task.kind with
  | .reset => ({ s with timeoutId := none }, none)
  | .trailing =>
      ({ s with timeoutId := none }, some ⟨task.due, task.args, s.context⟩)
  | .immediate =>
      let (s1, h) := dSchedReset s (task.due + cfg.delay)
      ({ s1 with timeoutResetId := some h },
        some ⟨task.due, task.args, s.context⟩)

/-- Is a due instant within the driver's current horizon (`none` means
unbounded, used for the final flush)? -/
def withinHorizon (d : Int) : Option Int → Bool
  | some h => d ≤ h
  | none => true

/-- Earliest pending task due within the horizon (`true` marks the
trigger-flavoured slot).  An earlier-due task runs first; the slots can
never hold the same due instant simultaneously, the tie arm is fixed for
determinism. -/
def dPick (s : DState) (horizon : Option Int) : Option (Bool × DTask) :=
  match s.pendTrig, s.pendReset with
  | some a, some b =>
      if withinHorizon a.due horizon then
        if withinHorizon b.due horizon ∧ b.due < a.due then some (false, b)
        else some (true, a)
      else if withinHorizon b.due horizon then some (false, b)
      else none
  | some a, none =>
      if withinHorizon a.due horizon then some (true, a) else none
  | none, some b =>
      if withinHorizon b.due horizon then some (false, b) else none
  | none, none => none

/-- Run the earliest due pending task, if any. -/
def dStep (cfg : DCfg) (x : DState × List DFire) (horizon : Option Int) :
    DState × List DFire :=
  match dPick x.1 horizon with
  | some (isTrig, task) =>
      let s1 := if isTrig then { x.1 with pendTrig := none }
                else { x.1 with pendReset := none }
      let (s2, f) := dRunTask cfg s1 task
      (s2, x.2 ++ f.toList)
  | none => x

/-- Run every task due within the horizon.  A chain is at most three tasks
long (a pending re-arm, then a trigger, which may spawn one more re-arm),
so four steps always drain the due set. -/
def dFlushDue (cfg : DCfg) (s : DState) (horizon : Option Int) :
    DState × List DFire :=
  dStep cfg (dStep cfg (dStep cfg (dStep cfg (s, []) horizon) horizon)
    horizon) horizon

/-- One external invocation of the debounced governed callable. -/
structure DCall where
  time : Int
  args : List Nat
  cs : Option Nat

/-- Timeline driver: tasks due at or before an incoming call run first;
after the last call every remaining task runs. -/
def runDebounceAux (cfg : DCfg) : DState → List DCall → List DFire
  | s, [] => (dFlushDue cfg s none).2
  | s, c :: rest =>
      let (s1, fs) := dFlushDue cfg s (some c.time)
      let s2 := debouncedCall cfg s1 c.time c.args c.cs
      fs ++ runDebounceAux cfg s2 rest

/-- Forwarded invocations produced by a fresh debounced governor on a list
of calls. -/
def runDebounce (cfg : DCfg) (calls : List DCall) : List DFire :=
  runDebounceAux cfg dInit calls

/-! ## Clocked governor runtime

The closure variables of `createClockedFunction` (`thisArg`, `argsArr`,
`clockCount`, `clockStart`, `timerId`) become a state record; the single
`setInterval` registration becomes `sched : Option IntervalReg` carrying
its handle and next due instant (a repeating timer re-arms itself by
`interval` every fire).  Handles are allocated from a counter so that a
cancelled cycle's handle can never collide with the replacement cycle's.
The trigger flavour is fixed at composition time by
`isFunction(controller)` (the `controller` argument never changes), kept
in the configuration as `hasController`. -/

/-- Configuration of one clocked governor after sanitization. -/
structure CCfg where
  interval : Int
  target : Option Nat
  hasController : Bool
deriving DecidableEq

/-- A live `setInterval` registration. -/
structure IntervalReg where
  handle : Nat
  nextDue : Int
deriving DecidableEq

/-- Closure state of one clocked governor plus its timer registration. -/
structure CState where
  thisArg : Option Nat
  argsArr : Option (List Nat)
  clockCount : Option Int
  clockStart : Option Int
  timerId : Option Nat
  sched : Option IntervalReg
  nextHandle : Nat
deriving DecidableEq

/-- State right after composition: every closure variable `null` (or
undefined), no timer. -/
def cInit : CState := ⟨none, none, none, none, none, none, 1⟩

/-- `clearInterval(x)`: drop the registration with that handle; `null` or
a stale handle is a no-op. -/
def clearIntervalOpt (x : Option Nat) (sched : Option IntervalReg) :
    Option IntervalReg :=
  match x, sched with
  | some h, some reg => if reg.handle = h then none else some reg
  | _, r => r

/-- Source `terminate()`: `clearInterval(timerId); timerId = null;
clockStart = null; clockCount = null;`. -/
def cTerminate (s : CState) : CState :=
  { s with sched := clearIntervalOpt s.timerId s.sched,
           timerId := none, clockStart := none, clockCount := none }

/-- Source `isActive()`: `timerId !== null`. -/
def cIsActive (s : CState) : Bool := s.timerId.isSome

/-- The `??` operator: left operand unless it is null/undefined. -/
def jsNullish (a b : Option Nat) : Option Nat :=
  match a with
  | some x => some x
  | none => b

/-- Source `clocked(...argumentsArray)` invoked at instant `now` with
call-site context `cs`: capture `thisArg = getSanitizedTarget(this) ??
target` (the call-site context overrules the composition-time target) and
the arguments; `terminate()` first if currently active; reset
`clockCount = 0`, `clockStart = now`; arm `setInterval(trigger,
interval)` under a fresh handle, first due one interval from now.  The
call body contains no invocation of `proceed`. -/
def clockedCall (cfg : CCfg) (s : CState) (now : Int) (cs : Option Nat)
    (args : List Nat) : CState :=
  let s1 := { s with thisArg := jsNullish cs cfg.target,
                     argsArr := some args }
  let s2 := if cIsActive s1 then cTerminate s1 else s1
  let s3 := { s2 with clockCount := some 0, clockStart := some now }
  { s3 with timerId := some s3.nextHandle,
            sched := some ⟨s3.nextHandle, now + cfg.interval⟩,
            nextHandle := s3.nextHandle + 1 }

/-- The per-tick data object handed to a controller:
`{ clock: { interval, startTime, timestamp, count }, target, args, ... }`
(the `proceed`/`terminate` closures are the model's operations
themselves). -/
structure CSnapshot where
  interval : Int
  startTime : Option Int
  timestamp : Int
  count : Int
  target : Option Nat
  args : List Nat
deriving DecidableEq

/-- What one tick forwards: a controller hand-off with its snapshot, or a
direct `proceed.apply(thisArg, argsArr)`. -/
inductive CEvent where
  | controllerCall (snap : CSnapshot) : CEvent
  | directInvoke (ctx : Option Nat) (args : List Nat) : CEvent
deriving DecidableEq

/-- One activation attempt of the repeating timer with handle `h` at
instant `t`: it fires only if that registration is still live and due,
re-arms one interval later, and runs `triggerController` (with
`count: ++clockCount` — incremented before being reported) or
`triggerProceed` (which invokes the original directly and touches no
counter).  The `getD` defaults mirror JavaScript coercion on the
never-reached `null` cases (`++null` is `1`). -/
def cTick (cfg : CCfg) (s : CState) (h : Nat) (t : Int) :
    CState × Option CEvent :=
  match s.sched with
  | some reg =>
      if reg.handle = h ∧ reg.nextDue = t then
        let s1 := { s with sched := some ⟨reg.handle, reg.nextDue + cfg.interval⟩ }
        if cfg.hasController then
          let c := s1.clockCount.getD 0 + 1
          ({ s1 with clockCount := some c },
            some (.controllerCall
              ⟨cfg.interval, s1.clockStart, t, c, s1.thisArg,
                s1.argsArr.getD []⟩))
        else
          (s1, some (.directInvoke s1.thisArg (s1.argsArr.getD [])))
      else (s, none)
  | none => (s, none)

/-- The governor's state-machine invariant: either fully inactive (timer
handle, registration, count and start all cleared) or fully active with
the registration matching the held handle, which is strictly below the
allocation counter. -/
def clockedInvB (s : CState) : Bool :=
  match s.timerId, s.sched, s.clockCount, s.clockStart with
  | some h, some reg, some _, some _ =>
      reg.handle == h && decide (h < s.nextHandle)
  | none, none, none, none => true
  | _, _, _, _ => false

/-- Characterization of `clocked(...)`: whether or not the governor was
active (the active branch merely terminates first, and every field the
termination touches is overwritten), the resulting state is the same
explicit record. -/
theorem clockedCall_fields (cfg : CCfg) (s : CState) (now : Int)
    (cs : Option Nat) (args : List Nat) :
    clockedCall cfg s now cs args =
      ⟨jsNullish cs cfg.target, some args, some 0, some now,
        some s.nextHandle, some ⟨s.nextHandle, now + cfg.interval⟩,
        s.nextHandle + 1⟩ := by
  obtain ⟨thisArg, argsArr, clockCount, clockStart, timerId, sched, nextHandle⟩ := s
  simp only [clockedCall, cIsActive, cTerminate]
  split <;> rfl

/-! ## Claim theorems -/

/-- C1 (counterexample): a clocked governor composed with the non-null
fixedTarget `7` and invoked with call-site context `3` captures `3`, not
the fixedTarget — context fixed at composition time does NOT win at call
time, refuting the claim. -/
theorem C1_counterexample :
    (clockedCall ⟨200, some 7, false⟩ cInit 1000 (some 3) []).thisArg =
      some 3 ∧ (some 3 : Option Nat) ≠ some 7 := by
  decide

/-- C1 (amended): for a clocked governed callable, the context captured
for a cycle is the call-site context whenever one is supplied (it
overrules the fixedTarget, as the source comment states); the fixedTarget
is used only when the call-site context is null or undefined. -/
theorem C1_callsite_context_wins (cfg : CCfg) (s : CState) (now : Int)
    (args : List Nat) (c : Nat) :
    (clockedCall cfg s now (some c) args).thisArg = some c ∧
      (clockedCall cfg s now none args).thisArg = cfg.target := by
  refine ⟨?_, ?_⟩ <;>
    · simp only [clockedCall, jsNullish, cIsActive, cTerminate]
      split <;> rfl

/-- C2 (counterexample): a clocked governor without a controller, started
at instant 1000 with interval 200, performs its first tick at 1200 as a
direct invocation of the wrapped callable, yet `invocationCount` stays 0 —
the count is not maintained on the controllerless path, refuting the
claim that every tick increments it and that the first tick reports 1. -/
theorem C2_counterexample :
    (cTick ⟨200, none, false⟩
        (clockedCall ⟨200, none, false⟩ cInit 1000 none [5]) 1 1200).2 =
      some (.directInvoke none [5]) ∧
    (cTick ⟨200, none, false⟩
        (clockedCall ⟨200, none, false⟩ cInit 1000 none [5]) 1 1200).1.clockCount =
      some 0 ∧
    (some 0 : Option Int) ≠ some 1 := by
  decide

/-- C2 (amended): on an active clocked governor, a due tick with a
controller increments `invocationCount` exactly once before reporting it
in the snapshot (so the first tick after a (re)start, where
`invocationCount = 0`, reports 1); a due tick without a controller
directly invokes the original callable with the captured context and
arguments but leaves `invocationCount` untouched. -/
theorem C2_tick_count (cfg : CCfg) (s s2 : CState) (reg : IntervalReg)
    (c now : Int) (cs : Option Nat) (args : List Nat)
    (hs : s.sched = some reg) (hc : s.clockCount = some c) :
    (cfg.hasController = true →
      cTick cfg s reg.handle reg.nextDue =
        ({ s with sched := some ⟨reg.handle, reg.nextDue + cfg.interval⟩,
                  clockCount := some (c + 1) },
          some (.controllerCall
            ⟨cfg.interval, s.clockStart, reg.nextDue, c + 1, s.thisArg,
              s.argsArr.getD []⟩))) ∧
    (cfg.hasController = false →
      cTick cfg s reg.handle reg.nextDue =
        ({ s with sched := some ⟨reg.handle, reg.nextDue + cfg.interval⟩ },
          some (.directInvoke s.thisArg (s.argsArr.getD [])))) ∧
    (clockedCall cfg s2 now cs args).clockCount = some 0 := by
  refine ⟨?_, ?_, ?_⟩
  · intro hctl
    simp [cTick, hs, hctl, hc]
  · intro hctl
    simp [cTick, hs, hctl]
  · simp [clockedCall]

/-- C2 (witness): concrete instantiation — a governor with a controller,
started at 1000 with interval 200 and argument list `[5]`, whose first
tick at 1200 reports count 1; and the matching controllerless facts. -/
theorem C2_tick_count_witness :
    ((true : Bool) = true →
      cTick ⟨200, none, true⟩
          ⟨none, some [5], some 0, some 1000, some 1, some ⟨1, 1200⟩, 2⟩ 1 1200 =
        ({ (⟨none, some [5], some 0, some 1000, some 1, some ⟨1, 1200⟩, 2⟩ : CState)
            with sched := some ⟨1, 1200 + 200⟩, clockCount := some (0 + 1) },
          some (.controllerCall ⟨200, some 1000, 1200, 0 + 1, none, [5]⟩))) ∧
    ((true : Bool) = false →
      cTick ⟨200, none, true⟩
          ⟨none, some [5], some 0, some 1000, some 1, some ⟨1, 1200⟩, 2⟩ 1 1200 =
        ({ (⟨none, some [5], some 0, some 1000, some 1, some ⟨1, 1200⟩, 2⟩ : CState)
            with sched := some ⟨1, 1200 + 200⟩ },
          some (.directInvoke none [5]))) ∧
    (clockedCall ⟨200, none, true⟩ cInit 1000 none [5]).clockCount = some 0 :=
  C2_tick_count ⟨200, none, true⟩
    ⟨none, some [5], some 0, some 1000, some 1, some ⟨1, 1200⟩, 2⟩
    cInit ⟨1, 1200⟩ 0 1000 none [5] rfl rfl

/-- C6: every wrapper factory applied to a non-invocable input returns the
input unchanged (an explicit pass-through, not a failure; the embedded
factories are total functions, so no exception can arise). -/
theorem C6_not_invocable_passthrough (v : JSVal)
    (h : isFunction v = false) :
    throttleWrap v = .passthrough v ∧ debounceWrap v = .passthrough v ∧
      createClockedFunction v = .passthrough v := by
  simp [throttleWrap, debounceWrap, createClockedFunction, h]

/-- C6 (witness): the non-invocable input `null` passes through all three
wrappers unchanged. -/
theorem C6_witness :
    throttleWrap .null = .passthrough .null ∧
      debounceWrap .null = .passthrough .null ∧
      createClockedFunction .null = .passthrough .null :=
  C6_not_invocable_passthrough .null (by decide)

/-- C7 (counterexample): the non-numeric duration argument `"50px"` does
not yield the documented default — `parseInt` extracts its leading digits,
so all three governors use 50 ms, refuting "every non-numeric duration
argument yields the default". -/
theorem C7_counterexample :
    throttleThreshold (.string "50px") = 50 ∧
      debounceDelay (.string "50px") = 50 ∧
      clockedInterval (.string "50px") = 50 ∧
      (50 : Int) ≠ 200 ∧ (50 : Int) ≠ 100 := by
  decide

/-- C7 (amended): a duration argument that parses to a nonpositive
integer, or does not parse at all (absent, null, booleans, `NaN`, the
infinities, digitless strings), yields the documented default (200 ms for
throttle and clocked, 100 ms for debounce) with no error surfaced; an
argument parsing to a positive safe integer is used as given.  (A
non-numeric argument whose text begins with digits, such as `"50px"`, is
used as its parsed leading integer instead of the default.) -/
theorem C7_duration_sanitization (v w u : JSVal) (k m : Int)
    (hvk : jsParseInt v = .int k) (hk : k ≤ 0)
    (hw : jsParseInt w = .nan)
    (hum : jsParseInt u = .int m) (hm1 : 1 ≤ m) (hm2 : m ≤ maxSafeInteger) :
    (throttleThreshold v = 200 ∧ debounceDelay v = 100 ∧
      clockedInterval v = 200) ∧
    (throttleThreshold w = 200 ∧ debounceDelay w = 100 ∧
      clockedInterval w = 200) ∧
    (throttleThreshold u = m ∧ debounceDelay u = m ∧
      clockedInterval u = m) := by
  have hsafe : isSafeInteger (.int m) = true := by
    simp only [isSafeInteger, decide_eq_true_eq]
    unfold maxSafeInteger at hm2 ⊢
    omega
  refine ⟨⟨?_, ?_, ?_⟩, ⟨?_, ?_, ?_⟩, ⟨?_, ?_, ?_⟩⟩ <;>
    simp only [throttleThreshold, debounceDelay, clockedInterval,
      throttleGetSanitizedPositiveInteger, clockedGetSanitizedPositiveInteger,
      throttleGetSanitizedInteger, clockedGetSanitizedInteger, jsIsFinite,
      hvk, hw, hum, hsafe, if_true] <;>
    (split <;> omega)

/-- C7 (witness): concrete instantiation — the negative duration `-5` and
the absent duration (`undefined`) yield the defaults; the valid positive
integer 150 is used as given by all three governors. -/
theorem C7_duration_sanitization_witness :
    (throttleThreshold (.number (.int (-5))) = 200 ∧
      debounceDelay (.number (.int (-5))) = 100 ∧
      clockedInterval (.number (.int (-5))) = 200) ∧
    (throttleThreshold .undefined = 200 ∧ debounceDelay .undefined = 100 ∧
      clockedInterval .undefined = 200) ∧
    (throttleThreshold (.number (.int 150)) = 150 ∧
      debounceDelay (.number (.int 150)) = 150 ∧
      clockedInterval (.number (.int 150)) = 150) :=
  C7_duration_sanitization (.number (.int (-5))) .undefined
    (.number (.int 150)) (-5) 150 (by decide) (by decide) (by decide)
    (by decide) (by decide) (by decide)

/-- C8: `terminate()` on a clocked governor is idempotent — terminating
twice yields exactly the state of terminating once, and on an
already-inactive governor whose `timerHandle`, `startInstant` and
`invocationCount` are cleared it is a complete no-op (the embedded
operation is total, so nothing throws). -/
theorem C8_terminate_idempotent (s : CState) :
    cTerminate (cTerminate s) = cTerminate s ∧
      (s.timerId = none ∧ s.clockStart = none ∧ s.clockCount = none →
        cTerminate s = s) := by
  constructor
  · cases s with
    | mk thisArg argsArr clockCount clockStart timerId sched nextHandle =>
        simp [cTerminate, clearIntervalOpt]
  · rintro ⟨h1, h2, h3⟩
    cases s with
    | mk thisArg argsArr clockCount clockStart timerId sched nextHandle =>
        simp_all [cTerminate, clearIntervalOpt]

/-- C8 (witness): concrete instantiation at the freshly composed
(inactive, cleared) governor state. -/
theorem C8_terminate_idempotent_witness :
    cTerminate (cTerminate cInit) = cTerminate cInit ∧ cTerminate cInit = cInit :=
  ⟨(C8_terminate_idempotent cInit).1,
    (C8_terminate_idempotent cInit).2 ⟨rfl, rfl, rfl⟩⟩

/-- C9: invoking an already-active clocked governor cancels the existing
timer and resets `invocationCount` to 0 and `startInstant` to the new
call instant, and no tick of the old cycle (old handle) can ever fire
again; moreover every operation — composition (`cInit`), invocation,
tick, `terminate` — preserves the invariant that the timer handle, the
live timer registration, `invocationCount` and `startInstant` are all
present exactly when the governor is active (and absent otherwise). -/
theorem C9_invariant_and_restart (cfg : CCfg) (s : CState) (now t : Int)
    (cs : Option Nat) (args : List Nat) (h : Nat)
    (hInv : clockedInvB s = true) :
    clockedInvB cInit = true ∧
    clockedInvB (clockedCall cfg s now cs args) = true ∧
    clockedInvB (cTick cfg s h t).1 = true ∧
    clockedInvB (cTerminate s) = true ∧
    (s.timerId = some h →
      (clockedCall cfg s now cs args).clockCount = some 0 ∧
      (clockedCall cfg s now cs args).clockStart = some now ∧
      cTick cfg (clockedCall cfg s now cs args) h t =
        (clockedCall cfg s now cs args, none)) := by
  obtain ⟨thisArg, argsArr, clockCount, clockStart, timerId, sched, nextHandle⟩ := s
  refine ⟨by decide, ?_, ?_, ?_, ?_⟩
  · rw [clockedCall_fields]
    simp [clockedInvB, Nat.lt_succ_self]
  · rcases timerId with _ | tid <;> rcases sched with _ | reg <;>
      rcases clockCount with _ | cc <;> rcases clockStart with _ | st <;>
      simp only [clockedInvB] at hInv <;>
      first
        | exact Bool.noConfusion hInv
        | (simp [cTick, clockedInvB]; done)
        | (rw [Bool.and_eq_true, beq_iff_eq, decide_eq_true_eq] at hInv
           simp only [cTick]
           by_cases hdue : reg.handle = h ∧ reg.nextDue = t
           · rw [if_pos hdue]
             by_cases hctl : cfg.hasController = true
             · rw [if_pos hctl]
               simp [clockedInvB, hInv.1, hInv.2]
             · rw [if_neg hctl]
               simp [clockedInvB, hInv.1, hInv.2]
           · rw [if_neg hdue]
             simp [clockedInvB, hInv.1, hInv.2])
  · rcases timerId with _ | tid <;> rcases sched with _ | reg <;>
      rcases clockCount with _ | cc <;> rcases clockStart with _ | st <;>
      simp_all [clockedInvB, cTerminate, clearIntervalOpt]
  · intro htid
    simp only at htid
    subst htid
    have hlt : h < nextHandle := by
      rcases sched with _ | reg <;> rcases clockCount with _ | cc <;>
        rcases clockStart with _ | st <;>
        simp only [clockedInvB] at hInv <;>
        first
          | exact Bool.noConfusion hInv
          | (rw [Bool.and_eq_true, beq_iff_eq, decide_eq_true_eq] at hInv
             exact hInv.2)
    refine ⟨by rw [clockedCall_fields], by rw [clockedCall_fields], ?_⟩
    simp only [clockedCall_fields, cTick]
    have hne : ¬(nextHandle = h ∧ now + cfg.interval = t) := by
      rintro ⟨rfl, -⟩
      omega
    rw [if_neg hne]

/-- C9 (witness): concrete instantiation — an active governor (handle 1,
started at 1000) re-invoked at 1100: the counters reset, the new cycle
runs under handle 2, and an old-cycle tick attempt (handle 1, at instant
1300) fires nothing and changes nothing. -/
theorem C9_invariant_and_restart_witness :
    clockedInvB cInit = true ∧
    clockedInvB (clockedCall ⟨200, none, false⟩
      ⟨none, some [5], some 0, some 1000, some 1, some ⟨1, 1200⟩, 2⟩
      1100 none [6]) = true ∧
    clockedInvB (cTick ⟨200, none, false⟩
      ⟨none, some [5], some 0, some 1000, some 1, some ⟨1, 1200⟩, 2⟩
      1 1300).1 = true ∧
    clockedInvB (cTerminate
      ⟨none, some [5], some 0, some 1000, some 1, some ⟨1, 1200⟩, 2⟩) = true ∧
    ((clockedCall ⟨200, none, false⟩
        ⟨none, some [5], some 0, some 1000, some 1, some ⟨1, 1200⟩, 2⟩
        1100 none [6]).clockCount = some 0 ∧
      (clockedCall ⟨200, none, false⟩
        ⟨none, some [5], some 0, some 1000, some 1, some ⟨1, 1200⟩, 2⟩
        1100 none [6]).clockStart = some 1100 ∧
      cTick ⟨200, none, false⟩
          (clockedCall ⟨200, none, false⟩
            ⟨none, some [5], some 0, some 1000, some 1, some ⟨1, 1200⟩, 2⟩
            1100 none [6]) 1 1300 =
        (clockedCall ⟨200, none, false⟩
          ⟨none, some [5], some 0, some 1000, some 1, some ⟨1, 1200⟩, 2⟩
          1100 none [6], none)) := by
  have hmain := C9_invariant_and_restart ⟨200, none, false⟩
    ⟨none, some [5], some 0, some 1000, some 1, some ⟨1, 1200⟩, 2⟩
    1100 1300 none [6] 1 (by decide)
  exact ⟨hmain.1, hmain.2.1, hmain.2.2.1, hmain.2.2.2.1,
    hmain.2.2.2.2 rfl⟩

/-- C10: invoking a clocked governed callable performs no synchronous
invocation of the wrapped callable — the call itself (whose embedding
emits no invocation event, mirroring a body that never applies `proceed`)
only captures context and arguments, resets the counters, and arms the
repeating timer first due exactly one interval after the call; any tick
attempt strictly before that instant fires nothing.  The sanitized
interval is always at least 1 ms, so the first possible forwarded
invocation (or controller hand-off) is strictly later than the call. -/
theorem C10_no_synchronous_invocation (cfg : CCfg) (s : CState)
    (now t : Int) (cs : Option Nat) (args : List Nat) (v : JSVal) (h : Nat)
    (hiv : cfg.interval = clockedInterval v)
    (ht : t < now + cfg.interval) :
    (clockedCall cfg s now cs args).argsArr = some args ∧
    (clockedCall cfg s now cs args).thisArg = jsNullish cs cfg.target ∧
    (clockedCall cfg s now cs args).clockCount = some 0 ∧
    (clockedCall cfg s now cs args).clockStart = some now ∧
    (clockedCall cfg s now cs args).sched =
      some ⟨s.nextHandle, now + cfg.interval⟩ ∧
    1 ≤ cfg.interval ∧
    now < now + cfg.interval ∧
    (cTick cfg (clockedCall cfg s now cs args) h t).2 = none := by
  have hpos : 1 ≤ clockedInterval v := by
    have hmax : (0 : Int) ≤ clockedGetSanitizedPositiveInteger v :=
      le_max_right _ _
    show (1 : Int) ≤
      if clockedGetSanitizedPositiveInteger v = 0 then 200
      else clockedGetSanitizedPositiveInteger v
    split <;> omega
  have hone : 1 ≤ cfg.interval := hiv ▸ hpos
  have harm : (clockedCall cfg s now cs args).sched =
      some ⟨s.nextHandle, now + cfg.interval⟩ := by
    simp [clockedCall, cIsActive, cTerminate, clearIntervalOpt]
    split <;> rfl
  refine ⟨?_, ?_, ?_, ?_, harm, hone, by omega, ?_⟩
  · simp [clockedCall, cIsActive, cTerminate]
    split <;> rfl
  · simp [clockedCall, cIsActive, cTerminate]
    split <;> rfl
  · simp [clockedCall]
  · simp [clockedCall]
  · simp only [cTick, harm]
    have hne : ¬(s.nextHandle = h ∧ now + cfg.interval = t) := by
      rintro ⟨-, rfl⟩
      omega
    rw [if_neg hne]

/-- C10 (witness): concrete instantiation — a fresh governor invoked at
1000 with the default 200 ms interval: counters set, timer first due at
1200, and a tick attempt at 1100 fires nothing. -/
theorem C10_no_synchronous_invocation_witness :
    (clockedCall ⟨200, none, false⟩ cInit 1000 none [5]).argsArr = some [5] ∧
    (clockedCall ⟨200, none, false⟩ cInit 1000 none [5]).thisArg =
      jsNullish none none ∧
    (clockedCall ⟨200, none, false⟩ cInit 1000 none [5]).clockCount = some 0 ∧
    (clockedCall ⟨200, none, false⟩ cInit 1000 none [5]).clockStart =
      some 1000 ∧
    (clockedCall ⟨200, none, false⟩ cInit 1000 none [5]).sched =
      some ⟨cInit.nextHandle, 1000 + 200⟩ ∧
    (1 : Int) ≤ 200 ∧
    (1000 : Int) < 1000 + 200 ∧
    (cTick ⟨200, none, false⟩
      (clockedCall ⟨200, none, false⟩ cInit 1000 none [5]) 1 1100).2 = none :=
  C10_no_synchronous_invocation ⟨200, none, false⟩ cInit 1000 1100 none [5]
    .undefined 1 (by decide) (by decide)

/-- C3 (counterexample): leading-edge debounce with `delay = 50` and calls
at t = 0, 10, 60 — the t = 10 call is NOT suppressed: it cancels the
re-arm timer and schedules a trailing invocation, which fires at t = 60
with the t = 10 call's own arguments, so the run produces three forwarded
invocations instead of the claimed two. -/
theorem C3_counterexample :
    runDebounce ⟨50, true, none⟩
        [⟨0, [0], none⟩, ⟨10, [1], none⟩, ⟨60, [2], none⟩] =
      [⟨0, [0], none⟩, ⟨60, [1], none⟩, ⟨60, [2], none⟩] ∧
    (⟨60, [1], none⟩ : DFire) ∈
      runDebounce ⟨50, true, none⟩
        [⟨0, [0], none⟩, ⟨10, [1], none⟩, ⟨60, [2], none⟩] := by
  decide

/-- C3 (amended): with `leadingEdge = true` the first call of a new burst
fires immediately, but a further call inside the open window is not
silently suppressed — it cancels the re-arm timer and schedules a trailing
fire `delay` ms later carrying its own arguments.  For `delay = 50` and
calls at t = 0, 10, 60 the forwarded invocations are: t = 0 with the first
call's arguments (leading), t = 60 with the t = 10 call's arguments
(trailing), and t = 60 with the t = 60 call's arguments (leading again,
the trailing fire having just closed the window).  Only when the window
closes silently (no second call before `delay` elapses) does a burst
produce exactly one leading fire, as in calls at t = 0 and t = 100. -/
theorem C3_leading_edge_trace :
    runDebounce ⟨50, true, none⟩
        [⟨0, [0], none⟩, ⟨10, [1], none⟩, ⟨60, [2], none⟩] =
      [⟨0, [0], none⟩, ⟨60, [1], none⟩, ⟨60, [2], none⟩] ∧
    runDebounce ⟨50, true, none⟩ [⟨0, [0], none⟩, ⟨100, [9], none⟩] =
      [⟨0, [0], none⟩, ⟨100, [9], none⟩] := by
  decide

/-! ### Throttle scenario steps (base instant `T` is any positive clock
reading; the scenario labels t = 0, 50, 80 of the spec are offsets from
it)  -/

/-- First call of the burst, at instant `T`: no prior fire, so it fires
immediately and records `T`. -/
theorem throttled_first_call (T : Int) :
    throttledCall ⟨100, false, none⟩ ⟨none, none, none, none⟩ T [0] none =
      (⟨some T, some T, none, none⟩, some ⟨T, [0], none, false⟩) := by
  simp [throttledCall, jsTruthyTime, effCtxOr, tTrigger]

/-- Second call, at `T + 50`: gap 50 below the threshold 100, so a
trailing fire is scheduled for `T + 100` with this call's arguments. -/
theorem throttled_second_call (T : Int) (hT : 0 < T) :
    throttledCall ⟨100, false, none⟩ ⟨some T, some T, none, none⟩ (T + 50)
        [1] none =
      (⟨some T, some (T + 50), none, some ⟨T + 100, [1]⟩⟩, none) := by
  have hT0 : (T != 0) = true := by
    simp [bne_iff_ne]
    omega
  simp [throttledCall, jsTruthyTime, effCtxOr, hT0, tTrigger]
  omega

/-- Third call, at `T + 80`: it cancels the pending trailing fire and
schedules its own, again due at `T + 100`, now with its arguments. -/
theorem throttled_third_call (T : Int) (hT : 0 < T) :
    throttledCall ⟨100, false, none⟩
        ⟨some T, some (T + 50), none, some ⟨T + 100, [1]⟩⟩ (T + 80)
        [2] none =
      (⟨some T, some (T + 80), none, some ⟨T + 100, [2]⟩⟩, none) := by
  have hT0 : (T != 0) = true := by
    simp [bne_iff_ne]
    omega
  simp [throttledCall, jsTruthyTime, effCtxOr, hT0, tTrigger]
  omega

/-- Full three-call burst: one immediate fire at `T` and exactly one
trailing fire at `T + 100` carrying the last call's arguments. -/
theorem throttle_burst_run (T : Int) (hT : 0 < T) :
    runThrottleAux ⟨100, false, none⟩ tInit
        [⟨T, [0], none⟩, ⟨T + 50, [1], none⟩, ⟨T + 80, [2], none⟩] =
      (⟨some (T + 80), some (T + 80), none, none⟩,
        [⟨T, [0], none, false⟩, ⟨T + 100, [2], none, true⟩]) := by
  have h1 := throttled_first_call T
  have h2 := throttled_second_call T hT
  have h3 := throttled_third_call T hT
  have hle : ¬(T + 100 ≤ T + 80) := by omega
  simp only [runThrottleAux, tInit, h1, h2, h3, hle, if_false,
    Option.toList, tFirePending, tTrigger]
  simp

/-- Two-call run: the trailing fire runs at `T + 100`, yet the final
`timestampRecent` is `T + 50` — the scheduling call's instant, not the
fire's. -/
theorem throttle_two_call_run (T : Int) (hT : 0 < T) :
    runThrottleAux ⟨100, false, none⟩ tInit
        [⟨T, [0], none⟩, ⟨T + 50, [1], none⟩] =
      (⟨some (T + 50), some (T + 50), none, none⟩,
        [⟨T, [0], none, false⟩, ⟨T + 100, [1], none, true⟩]) := by
  have h1 := throttled_first_call T
  have h2 := throttled_second_call T hT
  simp only [runThrottleAux, tInit, h1, h2, Option.toList,
    tFirePending, tTrigger]
  simp

/-- C4 (counterexample): calls at clock 1000 and 1050 with threshold 100
schedule a trailing fire that runs at 1100 with the 1050 call's
arguments — but afterwards `lastFireTimestamp` is 1050 (the scheduling
call's timestamp), not 1100 (the instant the scheduled fire actually
occurred), refuting the claim's second half. -/
theorem C4_counterexample :
    (runThrottleAux ⟨100, false, none⟩ tInit
        [⟨1000, [0], none⟩, ⟨1050, [1], none⟩]).2 =
      [⟨1000, [0], none, false⟩, ⟨1100, [1], none, true⟩] ∧
    (runThrottleAux ⟨100, false, none⟩ tInit
        [⟨1000, [0], none⟩, ⟨1050, [1], none⟩]).1.recent = some 1050 ∧
    (some 1050 : Option Int) ≠ some 1100 := by
  decide

/-- C4 (amended): a throttled call with a prior fire on record (and
trailing suppression off) schedules the trailing fire for
`max(threshold - gap, 0)` ms later, capturing this call's arguments and
resolved context; when the scheduled fire runs, it forwards exactly those
captured arguments with the context then held, but it updates
`lastFireTimestamp` to the timestamp of the call that scheduled it
(`timestampCurrent`), not to the instant the fire actually occurs — as
the two-call scenario shows, after the trailing fire at `T + 100` the
recorded timestamp is `T + 50`. -/
theorem C4_trailing_fire_semantics (cfg : TCfg) (s s2 : TState)
    (t T r : Int) (args : List Nat) (cs : Option Nat) (p : TPending)
    (hr : s.recent = some r) (hr0 : r ≠ 0) (hns : cfg.suppress = false)
    (hT : 0 < T) :
    (throttledCall cfg s t args cs =
      ({ s with context := effCtxOr cfg.target cs, current := some t,
                pending := some ⟨t + max (cfg.threshold - (t - r)) 0, args⟩ },
        none)) ∧
    (tFirePending s2 p =
      ({ s2 with pending := none, recent := s2.current },
        ⟨p.fireAt, p.args, s2.context, true⟩)) ∧
    (runThrottleAux ⟨100, false, none⟩ tInit
        [⟨T, [0], none⟩, ⟨T + 50, [1], none⟩] =
      (⟨some (T + 50), some (T + 50), none, none⟩,
        [⟨T, [0], none, false⟩, ⟨T + 100, [1], none, true⟩])) ∧
    (T + 50 : Int) ≠ T + 100 := by
  refine ⟨?_, rfl, throttle_two_call_run T hT, by omega⟩
  simp [throttledCall, jsTruthyTime, hr, hr0, hns, tTrigger]

/-- C4 (witness): concrete instantiation — a call at instant 5 against a
last fire at 1 schedules the trailing fire for 101; the fire step forwards
the captured arguments; and the two-call scenario at base 1000. -/
theorem C4_trailing_fire_semantics_witness :
    (throttledCall ⟨100, false, none⟩ ⟨some 1, some 1, none, none⟩ 5 [3]
        none =
      (⟨some 1, some 5, none, some ⟨5 + max (100 - (5 - 1)) 0, [3]⟩⟩,
        none)) ∧
    (tFirePending ⟨some 1, some 7, some 4, some ⟨9, [2]⟩⟩ ⟨9, [2]⟩ =
      (⟨some 7, some 7, some 4, none⟩, ⟨9, [2], some 4, true⟩)) ∧
    (runThrottleAux ⟨100, false, none⟩ tInit
        [⟨1000, [0], none⟩, ⟨1000 + 50, [1], none⟩] =
      (⟨some (1000 + 50), some (1000 + 50), none, none⟩,
        [⟨1000, [0], none, false⟩, ⟨1000 + 100, [1], none, true⟩])) ∧
    (1000 + 50 : Int) ≠ 1000 + 100 :=
  C4_trailing_fire_semantics ⟨100, false, none⟩
    ⟨some 1, some 1, none, none⟩ ⟨some 1, some 7, some 4, some ⟨9, [2]⟩⟩
    5 1000 1 [3] none ⟨9, [2]⟩ rfl (by decide) rfl (by decide)

/-- C5: per invocation the throttled governor either fires immediately or
schedules exactly one trailing fire, never both; every invocation begins
by cancelling whatever trailing fire was pending (the result never
depends on it); a scheduled trailing fire always carries the scheduling
call's own arguments; and in the spec's burst — calls at offsets 0, 50,
80 from any positive clock reading `T`, threshold 100, suppression off —
exactly one trailing fire occurs, at `T + 100`, with the `T + 80` call's
arguments. -/
theorem C5_exactly_one_invocation (cfg : TCfg) (s : TState) (t T : Int)
    (args : List Nat) (cs : Option Nat) (p : TPending) (hT : 0 < T) :
    ((throttledCall cfg s t args cs).2.isSome =
      !((throttledCall cfg s t args cs).1.pending.isSome)) ∧
    (throttledCall cfg s t args cs =
      throttledCall cfg { s with pending := none } t args cs) ∧
    ((throttledCall cfg s t args cs).1.pending = some p → p.args = args) ∧
    (runThrottle ⟨100, false, none⟩
        [⟨T, [0], none⟩, ⟨T + 50, [1], none⟩, ⟨T + 80, [2], none⟩] =
      [⟨T, [0], none, false⟩, ⟨T + 100, [2], none, true⟩]) := by
  refine ⟨?_, ?_, ?_, ?_⟩
  · simp only [throttledCall, tTrigger]
    split
    · split <;> simp
    · simp
  · cases s
    rfl
  · intro hp
    simp only [throttledCall, tTrigger] at hp
    split at hp
    · split at hp
      · simp at hp
      · simp only [Option.some.injEq] at hp
        rw [← hp]
    · simp at hp
  · unfold runThrottle
    rw [throttle_burst_run T hT]

/-- C5 (witness): concrete instantiation — a call at instant 5 against a
last fire at 1 (which schedules, not fires), and the burst scenario at
base clock reading 1000. -/
theorem C5_exactly_one_invocation_witness :
    ((throttledCall ⟨100, false, none⟩ ⟨some 1, some 1, none, none⟩ 5 [3]
        none).2.isSome =
      !((throttledCall ⟨100, false, none⟩ ⟨some 1, some 1, none, none⟩ 5
          [3] none).1.pending.isSome)) ∧
    (throttledCall ⟨100, false, none⟩ ⟨some 1, some 1, none, none⟩ 5 [3]
        none =
      throttledCall ⟨100, false, none⟩ ⟨some 1, some 1, none, none⟩ 5 [3]
        none) ∧
    ((⟨101, [3]⟩ : TPending).args = [3]) ∧
    (runThrottle ⟨100, false, none⟩
        [⟨1000, [0], none⟩, ⟨1000 + 50, [1], none⟩, ⟨1000 + 80, [2], none⟩] =
      [⟨1000, [0], none, false⟩, ⟨1000 + 100, [2], none, true⟩]) := by
  have h := C5_exactly_one_invocation ⟨100, false, none⟩
    ⟨some 1, some 1, none, none⟩ 5 1000 [3] none ⟨101, [3]⟩ (by decide)
  exact ⟨h.1, h.2.1, h.2.2.1 (by decide), h.2.2.2⟩

end ESFT
